import Mathlib

/-!
Verification of the welcome-bot in `src/main.js` against its design document.

The file is a shallow embedding of the program: the template engine
(`composeMessage` and its regex-replace passes), the config store
(`getMsgTemplate`, `setMsgTemplate`, `removeMsgTemplate`, `getOwnerId`,
`setOwnerId`, `removeOwnerId` over a key-value storage plus an in-memory
mirror), and the event handlers (`newMemberHandler`, `memberLeftHandler`,
`changeWelcomeMessageHandler`, `changeWelcomeMessageEmptyHandler`).
Stateful code is embedded by explicit state passing over `BotState`;
outbound messages are collected in a list of `(chatId, text)` pairs.
-/

-- ----------------
-- template engine

/-- Characters treated as special by the downstream lightweight markup
renderer. Modelled from the spec: the escape library (npm `markdown-escape`)
is an external collaborator, not part of this repository; the spec only
requires that characters with special meaning in the markup renderer be
escaped in substituted free text. `$` is not markup-special (the program
relies on this: the `$$` escape convention exists precisely because the
markup escape leaves `$` alone). -/
def markdownSpecials : List Char := ['*', '_', '[', ']', '(', ')', '#', '+', '-', '!', '>']

/-- Modelled from the spec: `markdownEscape` (external npm dependency)
prefixes every markup-special character with a backslash and leaves every
other character unchanged. -/
def markdownEscape : List Char → List Char
  | [] => []
  | c :: rest =>
    if markdownSpecials.contains c then '\\' :: c :: markdownEscape rest
    else c :: markdownEscape rest

/-- A Telegram user as the handlers see it: `msg.from`, `new_chat_members[i]`,
`left_chat_member`. `username` is the optional handle. -/
structure Member where
  id : Int
  is_bot : Bool
  first_name : String
  username : Option String
  deriving DecidableEq, Repr

/-- A Telegram chat: `msg.chat`. `type` is `"group"`, `"supergroup"`,
`"private"`, ...; `title` is the group name. -/
structure Chat where
  id : Int
  type : String
  title : String
  deriving DecidableEq, Repr

/-- The text interpolated for `member.username` in the `$username`
substitution. Modelled from the spec: the source passes the possibly-undefined
`member.username` through the external escape; per the spec (and the bot's own
help text), a member without a handle yields the literal text `undefined`, so
the substitution value is literally `@undefined`. -/
def usernameText (m : Member) : String :=
  match m.username with
  | some u => u
  | none => "undefined"

/-- Substitution value of `$safeusername`: `member.username ? '@'+escape(username)
: '@'+escape(first_name)` -- JS truthiness, so an empty-string handle also falls
back to the first name. -/
def safeUsernameVal (m : Member) : List Char :=
  match m.username with
  | some u =>
    if u == "" then '@' :: markdownEscape m.first_name.data
    else '@' :: markdownEscape u.data
  | none => '@' :: markdownEscape m.first_name.data

/-- One global-replace pass of a source regex of shape `([^$])($token)` with
replacement `pre + value`: scan left to right; at a character `c` other than
`$` that is immediately followed by the token, emit `c` followed by `val` and
resume after the token; otherwise emit the character and advance by one.
This is JS `String.prototype.replace` with a global regex: matches are found
left to right and non-overlapping in the original string, and replacement text
is never rescanned within the same pass. The `Nat` argument is fuel, consumed
one unit per scan position; the wrapper `replaceStep` passes the string length,
which always suffices. -/
def replaceStepF (tok val : List Char) : Nat → List Char → List Char
  | 0, s => s
  | _ + 1, [] => []
  | fuel + 1, c :: rest =>
    if c != '$' && tok.isPrefixOf rest then
      c :: (val ++ replaceStepF tok val fuel (rest.drop tok.length))
    else
      c :: replaceStepF tok val fuel rest

/-- One `.replace(/([^$])($token)/g, (full, pre) => pre + value)` pass. -/
def replaceStep (tok val : List Char) (s : List Char) : List Char :=
  replaceStepF tok val s.length s

/-- The final pass `.replace(/\$\$(username|safeusername|firstname|groupname)/g,
(full, match) => '$' + markdownEscape(match))`: scan left to right; at `$$`
immediately followed by one of the four names (tried in the alternation order
of the source regex), emit a single `$` and the escaped name and resume after
the match; otherwise advance by one character. Fueled like `replaceStepF`. -/
def replaceDDF : Nat → List Char → List Char
  | 0, s => s
  | _ + 1, [] => []
  | _ + 1, [c] => [c]
  | fuel + 1, c1 :: c2 :: rest =>
    if c1 == '$' && c2 == '$' then
      if "username".data.isPrefixOf rest then
        '$' :: markdownEscape "username".data ++ replaceDDF fuel (rest.drop "username".data.length)
      else if "safeusername".data.isPrefixOf rest then
        '$' :: markdownEscape "safeusername".data ++ replaceDDF fuel (rest.drop "safeusername".data.length)
      else if "firstname".data.isPrefixOf rest then
        '$' :: markdownEscape "firstname".data ++ replaceDDF fuel (rest.drop "firstname".data.length)
      else if "groupname".data.isPrefixOf rest then
        '$' :: markdownEscape "groupname".data ++ replaceDDF fuel (rest.drop "groupname".data.length)
      else c1 :: replaceDDF fuel (c2 :: rest)
    else c1 :: replaceDDF fuel (c2 :: rest)

/-- The `$$`-unescape pass, with fuel set to the string length. -/
def replaceDD (s : List Char) : List Char := replaceDDF s.length s

/-- `composeMessage` from `src/main.js`: the five chained `.replace` passes,
in source order (`$username`, `$firstname`, `$groupname`, `$safeusername`,
then the `$$` unescape). -/
def composeMessage (msg : String) (member : Member) (groupname : String) : String :=
  (replaceDD
    (replaceStep "$safeusername".data (safeUsernameVal member)
      (replaceStep "$groupname".data (markdownEscape groupname.data)
        (replaceStep "$firstname".data (markdownEscape member.first_name.data)
          (replaceStep "$username".data ('@' :: markdownEscape (usernameText member).data)
            msg.data))))).asString

-- ----------------
-- template engine lemmas

/-- `tok` occurs as a contiguous substring of `s`. -/
def hasSubstr (tok : List Char) : List Char → Bool
  | [] => tok.isEmpty
  | c :: rest => tok.isPrefixOf (c :: rest) || hasSubstr tok rest

/-- `s` contains the character `$`. -/
def hasDollar : List Char → Bool
  | [] => false
  | c :: rest => c == '$' || hasDollar rest

lemma hasSubstr_cons_false (tok : List Char) (c : Char) (rest : List Char)
    (h : hasSubstr tok (c :: rest) = false) :
    tok.isPrefixOf (c :: rest) = false ∧ hasSubstr tok rest = false := by
  simpa [hasSubstr] using h

lemma not_pre_of_not_hasSubstr (tok : List Char) (ht : tok ≠ [])
    (s : List Char) (h : hasSubstr tok s = false) : tok.isPrefixOf s = false := by
  cases s with
  | nil =>
    cases tok with
    | nil => exact absurd rfl ht
    | cons a as => simp [List.isPrefixOf]
  | cons c rest => exact (hasSubstr_cons_false tok c rest h).1

lemma hasDollar_cons_false {c : Char} {rest : List Char}
    (h : hasDollar (c :: rest) = false) : (c == '$') = false ∧ hasDollar rest = false := by
  simpa [hasDollar] using h

lemma hasDollar_of_dollar_pre (tok' : List Char) (s : List Char)
    (h : ('$' :: tok').isPrefixOf s = true) : hasDollar s = true := by
  cases s with
  | nil => simp [List.isPrefixOf] at h
  | cons c rest =>
    simp [List.isPrefixOf] at h
    simp [hasDollar]
    exact Or.inl h.1.symm

lemma markdownEscape_noDollar (l : List Char) (h : hasDollar l = false) :
    hasDollar (markdownEscape l) = false := by
  induction l with
  | nil => simp [markdownEscape, hasDollar]
  | cons c rest ih =>
    have hc := hasDollar_cons_false h
    by_cases hsp : c ∈ markdownSpecials
    · have he : markdownEscape (c :: rest) = '\\' :: c :: markdownEscape rest := by
        simp [markdownEscape, hsp]
      rw [he]
      simp only [hasDollar, hc.1, ih hc.2]
      decide
    · have he : markdownEscape (c :: rest) = c :: markdownEscape rest := by
        simp [markdownEscape, hsp]
      rw [he]
      simp [hasDollar, hc.1, ih hc.2]

/-- A replace pass whose token does not occur in the input leaves it
unchanged, for every fuel value. -/
lemma replaceStepF_id (tok val : List Char) (ht : tok ≠ []) :
    ∀ (fuel : Nat) (s : List Char), hasSubstr tok s = false →
      replaceStepF tok val fuel s = s := by
  intro fuel
  induction fuel with
  | zero => intro s _; rfl
  | succ n ih =>
    intro s h
    cases s with
    | nil => rfl
    | cons c rest =>
      have h2 := hasSubstr_cons_false tok c rest h
      have hp : tok.isPrefixOf rest = false :=
        not_pre_of_not_hasSubstr tok ht rest h2.2
      simp [replaceStepF, hp, ih rest h2.2]

/-- A replace pass whose token starts with `$` leaves a `$`-free input
unchanged, for every fuel value. -/
lemma replaceStepF_id_noDollar (tok val : List Char) (htok : tok.head? = some '$') :
    ∀ (fuel : Nat) (s : List Char), hasDollar s = false →
      replaceStepF tok val fuel s = s := by
  obtain ⟨tok', rfl⟩ : ∃ tok', tok = '$' :: tok' := by
    cases tok with
    | nil => simp at htok
    | cons a as => exact ⟨as, by simpa using congrArg (fun o => o.getD 'x' :: as) htok⟩
  intro fuel
  induction fuel with
  | zero => intro s _; rfl
  | succ n ih =>
    intro s h
    cases s with
    | nil => rfl
    | cons c rest =>
      have hc := hasDollar_cons_false h
      have hp : ('$' :: tok').isPrefixOf rest = false := by
        cases hq : ('$' :: tok').isPrefixOf rest with
        | false => rfl
        | true => exact absurd (hasDollar_of_dollar_pre tok' rest hq) (by simp [hc.2])
      simp [replaceStepF, hp, ih rest hc.2]

/-- The `$$`-unescape pass leaves a `$`-free input unchanged, for every
fuel value. -/
lemma replaceDDF_id_noDollar :
    ∀ (fuel : Nat) (s : List Char), hasDollar s = false →
      replaceDDF fuel s = s := by
  intro fuel
  induction fuel with
  | zero => intro s _; rfl
  | succ n ih =>
    intro s h
    match s with
    | [] => rfl
    | [c] => rfl
    | c1 :: c2 :: rest =>
      have hc1 := hasDollar_cons_false h
      have hc2 := hasDollar_cons_false hc1.2
      simp [replaceDDF, hc1.1, ih (c2 :: rest) hc1.2]

lemma hasSubstr_of_pre (tok s : List Char) (h : tok.isPrefixOf s = true) :
    hasSubstr tok s = true := by
  cases s with
  | nil =>
    cases tok with
    | nil => simp [hasSubstr]
    | cons a as => simp [List.isPrefixOf] at h
  | cons c rest => simp [hasSubstr, h]

lemma hasSubstr_cons_of (tok : List Char) (c : Char) (rest : List Char)
    (h : hasSubstr tok rest = true) : hasSubstr tok (c :: rest) = true := by
  simp [hasSubstr, h]

/-- Inside the `$$` pass, if `$name` does not occur in `c1 :: '$' :: rest`
then `name` is not a prefix of `rest`. -/
lemma ddName_not_pre (name : List Char) (c1 c2 : Char) (rest : List Char)
    (hc2 : c2 = '$')
    (h : hasSubstr ('$' :: name) (c1 :: c2 :: rest) = false) :
    name.isPrefixOf rest = false := by
  cases hq : name.isPrefixOf rest with
  | false => rfl
  | true =>
    have hpre : ('$' :: name).isPrefixOf (c2 :: rest) = true := by
      subst hc2
      simp [List.isPrefixOf, hq]
    have h1 : hasSubstr ('$' :: name) (c2 :: rest) = true := hasSubstr_of_pre _ _ hpre
    have h2 : hasSubstr ('$' :: name) (c1 :: c2 :: rest) = true := hasSubstr_cons_of _ _ _ h1
    rw [h] at h2
    exact Bool.noConfusion h2

/-- The `$$`-unescape pass leaves an input without any occurrence of the four
plain placeholder tokens unchanged, for every fuel value. -/
lemma replaceDDF_id :
    ∀ (fuel : Nat) (s : List Char),
      hasSubstr "$username".data s = false →
      hasSubstr "$safeusername".data s = false →
      hasSubstr "$firstname".data s = false →
      hasSubstr "$groupname".data s = false →
      replaceDDF fuel s = s := by
  intro fuel
  induction fuel with
  | zero => intro s _ _ _ _; rfl
  | succ n ih =>
    intro s h1 h2 h3 h4
    match s with
    | [] => rfl
    | [c] => rfl
    | c1 :: c2 :: rest =>
      have t1 := (hasSubstr_cons_false _ _ _ h1).2
      have t2 := (hasSubstr_cons_false _ _ _ h2).2
      have t3 := (hasSubstr_cons_false _ _ _ h3).2
      have t4 := (hasSubstr_cons_false _ _ _ h4).2
      by_cases hd : (c1 == '$' && c2 == '$') = true
      · have hc2 : c2 = '$' := eq_of_beq ((Bool.and_eq_true _ _).mp hd).2
        have p1 : "username".data.isPrefixOf rest = false :=
          ddName_not_pre "username".data c1 c2 rest hc2 h1
        have p2 : "safeusername".data.isPrefixOf rest = false :=
          ddName_not_pre "safeusername".data c1 c2 rest hc2 h2
        have p3 : "firstname".data.isPrefixOf rest = false :=
          ddName_not_pre "firstname".data c1 c2 rest hc2 h3
        have p4 : "groupname".data.isPrefixOf rest = false :=
          ddName_not_pre "groupname".data c1 c2 rest hc2 h4
        simp [replaceDDF, hd, p1, p2, p3, p4, ih (c2 :: rest) t1 t2 t3 t4]
      · have hd' : (c1 == '$' && c2 == '$') = false := by simpa using hd
        simp [replaceDDF, hd', ih (c2 :: rest) t1 t2 t3 t4]

lemma asString_data (s : String) : s.data.asString = s := rfl

-- ----------------
-- claims about the template engine

/-- C1 (counterexample): for the member with handle `bob`, rendering the
template `$username` does NOT yield `@` + escaped handle: the source regex
`([^$])($username)` requires a preceding non-`$` character, and at the very
start of the string there is none, so the placeholder is left unchanged. -/
theorem claimC1_counterexample :
    composeMessage "$username" ⟨1, false, "Ana", some "bob"⟩ "G" = "$username" ∧
    composeMessage "$username" ⟨1, false, "Ana", some "bob"⟩ "G" ≠
      "@" ++ (markdownEscape "bob".data).asString := by
  constructor
  · rfl
  · decide

/-- C1 (amended): a `$username` placeholder at the very start of the template
is not substituted -- `composeMessage "$username" m g = "$username"` for every
member; when the placeholder is preceded by a non-`$` character it is
substituted with `@` + escaped handle, preserving the preceding character
(shown for the preceding character `x` and any `$`-free handle). -/
theorem claimC1_theorem :
    (∀ (m : Member) (g : String), composeMessage "$username" m g = "$username") ∧
    (∀ (m : Member) (g u : String), m.username = some u → hasDollar u.data = false →
      composeMessage "x$username" m g = "x@" ++ (markdownEscape u.data).asString) := by
  constructor
  · intro m g
    rfl
  · intro m g u hu hd
    have husr : usernameText m = u := by
      unfold usernameText
      rw [hu]
    unfold composeMessage replaceStep replaceDD
    rw [husr]
    have e1 : replaceStepF "$username".data ('@' :: markdownEscape u.data)
        ("x$username".data.length) "x$username".data
        = 'x' :: (('@' :: markdownEscape u.data) ++ []) := rfl
    rw [e1]
    simp only [List.append_nil]
    have hnd : hasDollar ('x' :: '@' :: markdownEscape u.data) = false := by
      simp only [hasDollar, markdownEscape_noDollar u.data hd]
      decide
    rw [replaceStepF_id_noDollar "$firstname".data _ rfl _ _ hnd]
    rw [replaceStepF_id_noDollar "$groupname".data _ rfl _ _ hnd]
    rw [replaceStepF_id_noDollar "$safeusername".data _ rfl _ _ hnd]
    rw [replaceDDF_id_noDollar _ _ hnd]
    rfl

/-- C1 (witness): the amended theorem instantiated at a concrete member. -/
theorem claimC1_witness :
    composeMessage "$username" ⟨2, false, "Bea", some "bea"⟩ "H" = "$username" ∧
    composeMessage "x$username" ⟨2, false, "Bea", some "bea"⟩ "H" =
      "x@" ++ (markdownEscape "bea".data).asString :=
  ⟨claimC1_theorem.1 ⟨2, false, "Bea", some "bea"⟩ "H",
   claimC1_theorem.2 ⟨2, false, "Bea", some "bea"⟩ "H" "bea" rfl (by decide)⟩

/-- C2: the doubled-dollar form of each of the four placeholder names renders
as a single `$` followed by the literal placeholder name, regardless of the
member and group values; the emitted literal is the final output of the pass
(the `$$` unescape is the last replacement step), so it is never re-expanded. -/
theorem claimC2_theorem (m : Member) (g : String) :
    composeMessage "$$username" m g = "$username" ∧
    composeMessage "$$safeusername" m g = "$safeusername" ∧
    composeMessage "$$firstname" m g = "$firstname" ∧
    composeMessage "$$groupname" m g = "$groupname" := by
  refine ⟨?_, ?_, ?_, ?_⟩ <;> rfl

/-- C3 (counterexample): substituted free text IS re-matched by a later step:
for the member whose first name is the text `$groupname`, rendering
`x$firstname` against group `Hub` yields `xHub` -- the text injected by the
first-name step was expanded by the subsequent group-name step -- instead of
the `x$groupname` the claim predicts. -/
theorem claimC3_counterexample :
    composeMessage "x$firstname" ⟨3, false, "$groupname", none⟩ "Hub" = "xHub" ∧
    composeMessage "x$firstname" ⟨3, false, "$groupname", none⟩ "Hub" ≠ "x$groupname" := by
  constructor
  · rfl
  · decide

/-- C3 (amended): a later substitution step CAN re-match text produced by an
earlier one within the same pass: for every member whose first name is the
text `$groupname` and every `$`-free group name `g`, rendering `x$firstname`
substitutes the first name and then expands the injected text again, giving
`x` followed by the escaped group name. -/
theorem claimC3_theorem (m : Member) (g : String)
    (hf : m.first_name = "$groupname") (hg : hasDollar g.data = false) :
    composeMessage "x$firstname" m g = "x" ++ (markdownEscape g.data).asString := by
  unfold composeMessage replaceStep replaceDD
  rw [hf]
  rw [replaceStepF_id "$username".data _ (by decide) _ _ (by decide)]
  have e2 : replaceStepF "$firstname".data (markdownEscape "$groupname".data)
      ("x$firstname".data.length) "x$firstname".data = "x$groupname".data := by decide
  rw [e2]
  have e3 : replaceStepF "$groupname".data (markdownEscape g.data)
      ("x$groupname".data.length) "x$groupname".data
      = 'x' :: (markdownEscape g.data ++ []) := rfl
  rw [e3]
  simp only [List.append_nil]
  have hnd : hasDollar ('x' :: markdownEscape g.data) = false := by
    simp only [hasDollar, markdownEscape_noDollar g.data hg]
    decide
  rw [replaceStepF_id_noDollar "$safeusername".data _ rfl _ _ hnd]
  rw [replaceDDF_id_noDollar _ _ hnd]
  rfl

/-- C3 (witness): the amended theorem instantiated at a concrete member and
group. -/
theorem claimC3_witness :
    composeMessage "x$firstname" ⟨3, false, "$groupname", none⟩ "Lab" =
      "x" ++ (markdownEscape "Lab".data).asString :=
  claimC3_theorem ⟨3, false, "$groupname", none⟩ "Lab" rfl (by decide)

/-- C4: a template containing no occurrence of any of the four placeholder
tokens (which also rules out the doubled-dollar forms, since `$$name` contains
`$name`) renders unchanged for every member and group, and rendering the
output again still gives the same string. -/
theorem claimC4_theorem (T : String) (m : Member) (g : String)
    (h1 : hasSubstr "$username".data T.data = false)
    (h2 : hasSubstr "$safeusername".data T.data = false)
    (h3 : hasSubstr "$firstname".data T.data = false)
    (h4 : hasSubstr "$groupname".data T.data = false) :
    composeMessage T m g = T ∧ composeMessage (composeMessage T m g) m g = T := by
  have key : composeMessage T m g = T := by
    unfold composeMessage replaceStep replaceDD
    rw [replaceStepF_id "$username".data _ (by decide) _ _ h1]
    rw [replaceStepF_id "$firstname".data _ (by decide) _ _ h3]
    rw [replaceStepF_id "$groupname".data _ (by decide) _ _ h4]
    rw [replaceStepF_id "$safeusername".data _ (by decide) _ _ h2]
    rw [replaceDDF_id _ _ h1 h2 h3 h4]
    exact asString_data T
  exact ⟨key, by rw [key]; exact key⟩

/-- C4 (witness): a concrete placeholder-free template renders unchanged and
idempotently. -/
theorem claimC4_witness :
    composeMessage "hello world" ⟨4, false, "Ana", none⟩ "G" = "hello world" ∧
    composeMessage (composeMessage "hello world" ⟨4, false, "Ana", none⟩ "G")
      ⟨4, false, "Ana", none⟩ "G" = "hello world" :=
  claimC4_theorem "hello world" ⟨4, false, "Ana", none⟩ "G"
    (by decide) (by decide) (by decide) (by decide)

-- ----------------
-- config store state

/-- Association-list lookup, used to model both the durable key-value storage
(node-persist `getItem`) and the in-memory `msgTemplates` object: the first
binding of the key wins. -/
def assocGet {κ α : Type} [BEq κ] (l : List (κ × α)) (k : κ) : Option α :=
  (l.find? (fun p => p.1 == k)).map Prod.snd

/-- Binding update (`setItem` / object property assignment): overwrites any
previous binding of the key. -/
def assocSet {κ α : Type} [BEq κ] (l : List (κ × α)) (k : κ) (v : α) : List (κ × α) :=
  (k, v) :: l.filter (fun p => !(p.1 == k))

/-- Binding removal (`removeItem` / `delete`): removing an absent key is a
no-op. -/
def assocRemove {κ α : Type} [BEq κ] (l : List (κ × α)) (k : κ) : List (κ × α) :=
  l.filter (fun p => !(p.1 == k))

/-- The program state: durable node-persist storage plus the in-memory
template mirror. The source storage is a single string-keyed store; its two
key families `"<chatId>_msg_template"` (string values) and
`"<chatId>_owner_id"` (numeric values) are disjoint -- no key ends in both
suffixes -- so the store is split here into two typed components.
`msgTemplates` is the global in-memory object keyed by chat id. -/
structure BotState where
  storageTemplates : List (String × String)
  storageOwners : List (String × Int)
  msgTemplates : List (Int × String)
  deriving DecidableEq, Repr

/-- Fresh state: empty storage (a new persistence directory) and an empty
in-memory mirror. -/
def emptyState : BotState := ⟨[], [], []⟩

/-- `DEFAULT_MSG_TEMPLATE` from the source. -/
def DEFAULT_MSG_TEMPLATE : String := "👋 *Selamat bergabung* $firstname ($safeusername) di $groupname yuk perkenalkan diri dan startup nya ! 😀\nKalau sobat memiliki permasalahan tentang startup, feel free to discuss with us 😀"

/-- `ERROR_MESSAGE_PREFIX` from the source (renamed here), prepended to every
user-visible error. -/
def ERROR_MESSAGE_HEAD : String := "⚠️ *Beep, boop, error!*"

/-- `INTRO_MSG` from the source. -/
def INTRO_MSG : String := "👋 Hi!\n\nPerkenalkan saya Sobat ABP bot, mulai saat ini saya akan menemani sobat di group $groupname"

/-- `composeIntroMessage` from the source. -/
def composeIntroMessage (owner : Member) (groupName : String) : String :=
  composeMessage INTRO_MSG owner groupName

/-- `composeErrorMessage` from the source. -/
def composeErrorMessage (msg : String) : String := ERROR_MESSAGE_HEAD ++ " " ++ msg

/-- `getMsgTemplateKey` from the source: `` `${chatId}_msg_template` ``. -/
def getMsgTemplateKey (chatId : Int) : String := toString chatId ++ "_msg_template"

/-- `getOwnerIdKey` from the source: `` `${chatId}_owner_id` ``. -/
def getOwnerIdKey (chatId : Int) : String := toString chatId ++ "_owner_id"

/-- Branch of `getMsgTemplate` taken when the in-memory mirror misses: query
durable storage; on a truthy stored value cache it in memory and return it;
otherwise cache the hardcoded default in memory (without persisting it) and
return it. -/
def getMsgTemplateStored (st : BotState) (chatId : Int) : String × BotState :=
  match assocGet st.storageTemplates (getMsgTemplateKey chatId) with
  | some s =>
    if s == "" then
      (DEFAULT_MSG_TEMPLATE,
       { st with msgTemplates := assocSet st.msgTemplates chatId DEFAULT_MSG_TEMPLATE })
    else
      (s, { st with msgTemplates := assocSet st.msgTemplates chatId s })
  | none =>
    (DEFAULT_MSG_TEMPLATE,
     { st with msgTemplates := assocSet st.msgTemplates chatId DEFAULT_MSG_TEMPLATE })

/-- `getMsgTemplate` from the source: read-through with JS truthiness
(`if (msgTemplates[chatId])` and `if (storedTemplate)` treat an empty string
like a miss). -/
def getMsgTemplate (st : BotState) (chatId : Int) : String × BotState :=
  match assocGet st.msgTemplates chatId with
  | some t => if t == "" then getMsgTemplateStored st chatId else (t, st)
  | none => getMsgTemplateStored st chatId

/-- `setMsgTemplate` from the source: write durable storage, then update the
in-memory mirror. -/
def setMsgTemplate (st : BotState) (chatId : Int) (msgTemplate : String) : BotState :=
  { st with
    storageTemplates := assocSet st.storageTemplates (getMsgTemplateKey chatId) msgTemplate,
    msgTemplates := assocSet st.msgTemplates chatId msgTemplate }

/-- `removeMsgTemplate` from the source: delete the in-memory entry and the
durable key. -/
def removeMsgTemplate (st : BotState) (chatId : Int) : BotState :=
  { st with
    msgTemplates := assocRemove st.msgTemplates chatId,
    storageTemplates := assocRemove st.storageTemplates (getMsgTemplateKey chatId) }

/-- `getOwnerId` from the source: direct pass-through to durable storage. -/
def getOwnerId (st : BotState) (chatId : Int) : Option Int :=
  assocGet st.storageOwners (getOwnerIdKey chatId)

/-- `setOwnerId` from the source. -/
def setOwnerId (st : BotState) (chatId : Int) (ownerId : Int) : BotState :=
  { st with storageOwners := assocSet st.storageOwners (getOwnerIdKey chatId) ownerId }

/-- `removeOwnerId` from the source. -/
def removeOwnerId (st : BotState) (chatId : Int) : BotState :=
  { st with storageOwners := assocRemove st.storageOwners (getOwnerIdKey chatId) }

-- ----------------
-- event handlers

/-- JS `String.prototype.trim` (external built-in), modelled on the character
list: drop leading and trailing whitespace. -/
def jsTrim (s : String) : String :=
  (((s.data.dropWhile Char.isWhitespace).reverse.dropWhile Char.isWhitespace).reverse).asString

/-- `isGroup` from the source:
`['group', 'supergroup'].indexOf(msg.chat.type) > -1`. -/
def isGroupChat (chat : Chat) : Bool := ["group", "supergroup"].contains chat.type

/-- A `new_chat_members` platform event. `sender` is `msg.from` (the member
whose action caused the join). -/
structure NewMemberMsg where
  chat : Chat
  sender : Member
  new_chat_members : List Member
  deriving DecidableEq, Repr

/-- A `left_chat_member` platform event. -/
structure LeftMemberMsg where
  chat : Chat
  left_chat_member : Member
  deriving DecidableEq, Repr

/-- A command message. `sender` is `msg.from` (the issuing member). -/
structure CommandMsg where
  chat : Chat
  sender : Member
  deriving DecidableEq, Repr

/-- `notGroupHandler` from the source. -/
def notGroupHandler (st : BotState) (chatId : Int) : List (Int × String) × BotState :=
  ([(chatId, "*Add me to a group first!*")], st)

/-- `newMemberHandler` from the source. It reads only
`msg.new_chat_members[0]`; the `none` branch is unreachable (the platform
delivers at least one new member; on an empty list the source would fail
reading `.id` of `undefined`). -/
def newMemberHandler (botId : Int) (st : BotState) (msg : NewMemberMsg) :
    List (Int × String) × BotState :=
  match msg.new_chat_members.head? with
  | none => ([], st)
  | some newMember =>
    if newMember.id == botId then
      ([(msg.chat.id, composeIntroMessage msg.sender msg.chat.title)],
       setOwnerId st msg.chat.id msg.sender.id)
    else if !newMember.is_bot then
      let r := getMsgTemplate st msg.chat.id
      ([(msg.chat.id, composeMessage r.1 newMember msg.chat.title)], r.2)
    else ([], st)

/-- `memberLeftHandler` from the source: when the departed member is the bot
itself, remove the owner record, then the template records. -/
def memberLeftHandler (botId : Int) (st : BotState) (msg : LeftMemberMsg) :
    List (Int × String) × BotState :=
  if msg.left_chat_member.id == botId then
    ([], removeMsgTemplate (removeOwnerId st msg.chat.id) msg.chat.id)
  else ([], st)

/-- `changeWelcomeMessageEmptyHandler` from the source. -/
def changeWelcomeMessageEmptyHandler (st : BotState) (msg : CommandMsg) :
    List (Int × String) × BotState :=
  if !isGroupChat msg.chat then notGroupHandler st msg.chat.id
  else ([(msg.chat.id, composeErrorMessage "You can\x27t set an empty message!")], st)

/-- `changeWelcomeMessageHandler` from the source. `capture` is `match[1]`,
the command argument captured by the dispatch regex. The ownership test is
`owner.id !== ownerId` with `ownerId` a number or `undefined`, i.e. the
`Option Int` comparison below. -/
def changeWelcomeMessageHandler (st : BotState) (msg : CommandMsg) (capture : String) :
    List (Int × String) × BotState :=
  if !isGroupChat msg.chat then notGroupHandler st msg.chat.id
  else
    let chatId := msg.chat.id
    let ownerId := getOwnerId st chatId
    if some msg.sender.id != ownerId then
      ([(chatId, composeErrorMessage "Only the user who introduced me to this group can change the message!")], st)
    else
      let msgTemplate := jsTrim capture
      if msgTemplate.data.length == 0 then changeWelcomeMessageEmptyHandler st msg
      else
        let st' := setMsgTemplate st chatId msgTemplate
        ([(chatId, "✔️ New welcome message set! Here\x27s an example:\n\n" ++
            composeMessage msgTemplate msg.sender msg.chat.title)], st')

-- ----------------
-- store lemmas

lemma assocGet_set_self {κ α : Type} [BEq κ] [LawfulBEq κ]
    (l : List (κ × α)) (k : κ) (v : α) :
    assocGet (assocSet l k v) k = some v := by
  simp [assocGet, assocSet, List.find?]

lemma assocGet_remove_self {κ α : Type} [BEq κ] [LawfulBEq κ]
    (l : List (κ × α)) (k : κ) :
    assocGet (assocRemove l k) k = none := by
  unfold assocGet assocRemove
  rw [List.find?_eq_none.mpr]
  · rfl
  · intro x hx
    have hmem := (List.mem_filter.mp hx).2
    simp at hmem
    simp [hmem]

-- ----------------
-- claims about the config store and handlers

/-- C5: `getMsgTemplate` is a total read-through (a Lean function, so it
always returns a string): a truthy in-memory entry is returned with the state
untouched; on a mirror miss a truthy durably stored value is cached in memory
and returned; and when both miss the hardcoded default is cached in memory --
without touching durable storage -- and returned. (`some t`/`some s` with the
nonemptiness that the source's truthiness checks test for; entries are only
ever written nonempty.) -/
theorem claimC5_theorem (st : BotState) (chatId : Int) :
    (∀ t, assocGet st.msgTemplates chatId = some t → t ≠ "" →
      getMsgTemplate st chatId = (t, st)) ∧
    (assocGet st.msgTemplates chatId = none →
      ∀ s, assocGet st.storageTemplates (getMsgTemplateKey chatId) = some s → s ≠ "" →
        getMsgTemplate st chatId =
          (s, { st with msgTemplates := assocSet st.msgTemplates chatId s })) ∧
    (assocGet st.msgTemplates chatId = none →
      assocGet st.storageTemplates (getMsgTemplateKey chatId) = none →
      getMsgTemplate st chatId =
        (DEFAULT_MSG_TEMPLATE,
         { st with msgTemplates := assocSet st.msgTemplates chatId DEFAULT_MSG_TEMPLATE })) := by
  refine ⟨?_, ?_, ?_⟩
  · intro t hmem ht
    unfold getMsgTemplate
    rw [hmem]
    simp [ht]
  · intro hmem s hsto hs
    unfold getMsgTemplate getMsgTemplateStored
    rw [hmem, hsto]
    simp [hs]
  · intro hmem hsto
    unfold getMsgTemplate getMsgTemplateStored
    rw [hmem, hsto]

/-- C5 (witness): the three read-through cases at concrete states. -/
theorem claimC5_witness :
    getMsgTemplate ⟨[], [], [(1, "T")]⟩ 1 = ("T", ⟨[], [], [(1, "T")]⟩) ∧
    getMsgTemplate ⟨[("1_msg_template", "S")], [], []⟩ 1 =
      ("S", ⟨[("1_msg_template", "S")], [], [(1, "S")]⟩) ∧
    getMsgTemplate emptyState 1 =
      (DEFAULT_MSG_TEMPLATE, ⟨[], [], [(1, DEFAULT_MSG_TEMPLATE)]⟩) :=
  ⟨(claimC5_theorem ⟨[], [], [(1, "T")]⟩ 1).1 "T" (by decide) (by decide),
   (claimC5_theorem ⟨[("1_msg_template", "S")], [], []⟩ 1).2.1 (by decide) "S"
     (by decide) (by decide),
   (claimC5_theorem emptyState 1).2.2 (by decide) (by decide)⟩

/-- C6 (counterexample): for the empty template string, the claim fails:
after `setMsgTemplate` of `""` (mirror and storage both `""`), a subsequent
`getMsgTemplate` does not return the written value -- the truthiness check
treats `""` as a miss, so it returns the default and caches it in the mirror,
after which mirror (`some DEFAULT`) and storage (`some ""`) diverge. -/
theorem claimC6_counterexample :
    (getMsgTemplate (setMsgTemplate emptyState 1 "") 1).1 ≠ "" ∧
    assocGet (getMsgTemplate (setMsgTemplate emptyState 1 "") 1).2.msgTemplates 1 ≠
      assocGet (getMsgTemplate (setMsgTemplate emptyState 1 "") 1).2.storageTemplates
        (getMsgTemplateKey 1) := by
  decide

/-- C6 (amended): for every NONEMPTY template string `t`, after
`setMsgTemplate chatId t` the in-memory mirror entry and the durably stored
value under `"<chatId>_msg_template"` both equal `t`, and a subsequent
`getMsgTemplate` returns `t` from the mirror leaving the state unchanged. -/
theorem claimC6_theorem (st : BotState) (chatId : Int) (t : String) (ht : t ≠ "") :
    assocGet (setMsgTemplate st chatId t).msgTemplates chatId = some t ∧
    assocGet (setMsgTemplate st chatId t).storageTemplates (getMsgTemplateKey chatId) =
      some t ∧
    getMsgTemplate (setMsgTemplate st chatId t) chatId = (t, setMsgTemplate st chatId t) := by
  have hm : assocGet (setMsgTemplate st chatId t).msgTemplates chatId = some t := by
    unfold setMsgTemplate
    exact assocGet_set_self _ _ _
  have hs : assocGet (setMsgTemplate st chatId t).storageTemplates
      (getMsgTemplateKey chatId) = some t := by
    unfold setMsgTemplate
    exact assocGet_set_self _ _ _
  refine ⟨hm, hs, ?_⟩
  unfold getMsgTemplate
  rw [hm]
  simp [ht]

/-- C6 (witness): the amended theorem at a concrete chat and template. -/
theorem claimC6_witness :
    assocGet (setMsgTemplate emptyState 1 "hello").msgTemplates 1 = some "hello" ∧
    assocGet (setMsgTemplate emptyState 1 "hello").storageTemplates (getMsgTemplateKey 1) =
      some "hello" ∧
    getMsgTemplate (setMsgTemplate emptyState 1 "hello") 1 =
      ("hello", setMsgTemplate emptyState 1 "hello") :=
  claimC6_theorem emptyState 1 "hello" (by decide)

/-- C7: a change-welcome-message command issued inside a group by a member
whose id differs from the stored owner id yields exactly one outbound
message, the permission-denied error, and returns the state unchanged (so the
stored template, the in-memory mirror and the stored owner id are all
untouched). -/
theorem claimC7_theorem (st : BotState) (msg : CommandMsg) (capture : String) (oid : Int)
    (hg : isGroupChat msg.chat = true)
    (ho : getOwnerId st msg.chat.id = some oid)
    (hne : oid ≠ msg.sender.id) :
    changeWelcomeMessageHandler st msg capture =
      ([(msg.chat.id, composeErrorMessage
          "Only the user who introduced me to this group can change the message!")], st) := by
  have hne' : msg.sender.id ≠ oid := fun h => hne h.symm
  simp [changeWelcomeMessageHandler, hg, ho, hne']

/-- C7 (witness): a non-owner (id 2, stored owner id 1) is rejected and the
state is unchanged. -/
theorem claimC7_witness :
    changeWelcomeMessageHandler ⟨[], [("10_owner_id", 1)], []⟩
      ⟨⟨10, "group", "G"⟩, ⟨2, false, "Eve", none⟩⟩ "new text" =
      ([(10, composeErrorMessage
          "Only the user who introduced me to this group can change the message!")],
       ⟨[], [("10_owner_id", 1)], []⟩) :=
  claimC7_theorem ⟨[], [("10_owner_id", 1)], []⟩
    ⟨⟨10, "group", "G"⟩, ⟨2, false, "Eve", none⟩⟩ "new text" 1
    (by decide) (by decide) (by decide)

/-- C8 (counterexample): a whitespace-only argument does NOT always produce
the validation error: a non-owner (id 2, stored owner id 1) issuing the
command with argument `" "` inside a group receives the permission-denied
error instead, so the claimed "message cannot be empty" error is not sent. -/
theorem claimC8_counterexample :
    (10, composeErrorMessage "You can\x27t set an empty message!") ∉
      (changeWelcomeMessageHandler ⟨[], [("10_owner_id", 1)], []⟩
        ⟨⟨10, "group", "G"⟩, ⟨2, false, "Eve", none⟩⟩ " ").1 ∧
    (changeWelcomeMessageHandler ⟨[], [("10_owner_id", 1)], []⟩
      ⟨⟨10, "group", "G"⟩, ⟨2, false, "Eve", none⟩⟩ " ").1 =
      [(10, composeErrorMessage
        "Only the user who introduced me to this group can change the message!")] := by
  decide

/-- C8 (amended): inside a group, the empty-argument command variant always
sends the "message cannot be empty" validation error, and the
captured-argument variant sends it when the issuer is the stored owner and
the argument trims to empty; a non-owner with a whitespace-only argument gets
the permission-denied error instead (counterexample). In every such case the
returned state is exactly the input state: no storage write, no mirror or
template change. -/
theorem claimC8_theorem :
    (∀ (st : BotState) (msg : CommandMsg), isGroupChat msg.chat = true →
      changeWelcomeMessageEmptyHandler st msg =
        ([(msg.chat.id, composeErrorMessage "You can\x27t set an empty message!")], st)) ∧
    (∀ (st : BotState) (msg : CommandMsg) (capture : String),
      isGroupChat msg.chat = true →
      getOwnerId st msg.chat.id = some msg.sender.id →
      jsTrim capture = "" →
      changeWelcomeMessageHandler st msg capture =
        ([(msg.chat.id, composeErrorMessage "You can\x27t set an empty message!")], st)) := by
  constructor
  · intro st msg hg
    simp [changeWelcomeMessageEmptyHandler, hg]
  · intro st msg capture hg ho htrim
    simp [changeWelcomeMessageHandler, hg, ho, htrim, changeWelcomeMessageEmptyHandler]

/-- C8 (witness): both amended cases at concrete inputs -- the empty-argument
variant, and the owner with a whitespace-only argument. -/
theorem claimC8_witness :
    changeWelcomeMessageEmptyHandler ⟨[], [("10_owner_id", 1)], []⟩
      ⟨⟨10, "group", "G"⟩, ⟨1, false, "Ana", none⟩⟩ =
      ([(10, composeErrorMessage "You can\x27t set an empty message!")],
       ⟨[], [("10_owner_id", 1)], []⟩) ∧
    changeWelcomeMessageHandler ⟨[], [("10_owner_id", 1)], []⟩
      ⟨⟨10, "group", "G"⟩, ⟨1, false, "Ana", none⟩⟩ " " =
      ([(10, composeErrorMessage "You can\x27t set an empty message!")],
       ⟨[], [("10_owner_id", 1)], []⟩) :=
  ⟨claimC8_theorem.1 ⟨[], [("10_owner_id", 1)], []⟩
     ⟨⟨10, "group", "G"⟩, ⟨1, false, "Ana", none⟩⟩ (by decide),
   claimC8_theorem.2 ⟨[], [("10_owner_id", 1)], []⟩
     ⟨⟨10, "group", "G"⟩, ⟨1, false, "Ana", none⟩⟩ " " (by decide) (by decide) (by decide)⟩

/-- C9: when the departed member reported by the platform is the bot itself,
the handler removes the owner record and both template records (durable and
in-memory) of that chat: afterwards `getOwnerId` is `none`, both template
lookups are `none`, and `getMsgTemplate` returns the hardcoded default. -/
theorem claimC9_theorem (botId : Int) (st : BotState) (msg : LeftMemberMsg)
    (h : msg.left_chat_member.id = botId) :
    getOwnerId (memberLeftHandler botId st msg).2 msg.chat.id = none ∧
    assocGet (memberLeftHandler botId st msg).2.msgTemplates msg.chat.id = none ∧
    assocGet (memberLeftHandler botId st msg).2.storageTemplates
      (getMsgTemplateKey msg.chat.id) = none ∧
    (getMsgTemplate (memberLeftHandler botId st msg).2 msg.chat.id).1 =
      DEFAULT_MSG_TEMPLATE := by
  have hb : (msg.left_chat_member.id == botId) = true := by simp [h]
  have hst : (memberLeftHandler botId st msg).2 =
      removeMsgTemplate (removeOwnerId st msg.chat.id) msg.chat.id := by
    simp [memberLeftHandler, hb]
  rw [hst]
  have h1 : getOwnerId (removeMsgTemplate (removeOwnerId st msg.chat.id) msg.chat.id)
      msg.chat.id = none := by
    unfold getOwnerId removeMsgTemplate removeOwnerId
    exact assocGet_remove_self _ _
  have h2 : assocGet (removeMsgTemplate (removeOwnerId st msg.chat.id) msg.chat.id).msgTemplates
      msg.chat.id = none := by
    unfold removeMsgTemplate
    exact assocGet_remove_self _ _
  have h3 : assocGet
      (removeMsgTemplate (removeOwnerId st msg.chat.id) msg.chat.id).storageTemplates
      (getMsgTemplateKey msg.chat.id) = none := by
    unfold removeMsgTemplate removeOwnerId
    exact assocGet_remove_self _ _
  refine ⟨h1, h2, h3, ?_⟩
  unfold getMsgTemplate getMsgTemplateStored
  rw [h2, h3]

/-- C9 (witness): the bot (id 99) leaves a configured chat (id 7); owner and
template records are gone and the default template is served. -/
theorem claimC9_witness :
    getOwnerId (memberLeftHandler 99 ⟨[("7_msg_template", "T")], [("7_owner_id", 5)], [(7, "T")]⟩
      ⟨⟨7, "group", "G"⟩, ⟨99, true, "Bot", none⟩⟩).2 7 = none ∧
    assocGet (memberLeftHandler 99 ⟨[("7_msg_template", "T")], [("7_owner_id", 5)], [(7, "T")]⟩
      ⟨⟨7, "group", "G"⟩, ⟨99, true, "Bot", none⟩⟩).2.msgTemplates 7 = none ∧
    assocGet (memberLeftHandler 99 ⟨[("7_msg_template", "T")], [("7_owner_id", 5)], [(7, "T")]⟩
      ⟨⟨7, "group", "G"⟩, ⟨99, true, "Bot", none⟩⟩).2.storageTemplates
      (getMsgTemplateKey 7) = none ∧
    (getMsgTemplate (memberLeftHandler 99
      ⟨[("7_msg_template", "T")], [("7_owner_id", 5)], [(7, "T")]⟩
      ⟨⟨7, "group", "G"⟩, ⟨99, true, "Bot", none⟩⟩).2 7).1 = DEFAULT_MSG_TEMPLATE :=
  claimC9_theorem 99 ⟨[("7_msg_template", "T")], [("7_owner_id", 5)], [(7, "T")]⟩
    ⟨⟨7, "group", "G"⟩, ⟨99, true, "Bot", none⟩⟩ rfl

/-- C10: `newMemberHandler` inspects only `new_chat_members[0]`: its entire
result (messages sent and resulting state) on an event listing `m :: rest` is
identical to its result on the event listing only `m`, for every state, bot
id and trailing member list -- the remaining new members are never greeted
and cause no state change. -/
theorem claimC10_theorem (botId : Int) (st : BotState) (chat : Chat) (sender : Member)
    (m : Member) (rest : List Member) :
    newMemberHandler botId st ⟨chat, sender, m :: rest⟩ =
      newMemberHandler botId st ⟨chat, sender, [m]⟩ := rfl
